import Mathlib

/-!
# MiddlemanRequestsPage

A shallow embedding of `agrotech-frontend/src/components/MiddlemanRequestsPage.js`.

* The five `useState` cells become the record `State`.
* The asynchronous handlers (`fetchRequests`, `toggleStatus`, `viewProfile`, the
  `onClick` closures) become programs of type `Prog`: a tree of state writes,
  `console.error` calls and awaited backend calls, each awaited call carrying the
  continuation that runs once the promise settles (`try`/`catch` is the case split of
  that continuation on the settled result).
* `Prog.run` executes a program against a `Backend`, threading the state and an event
  trace; `Prog.untilAwait` executes only the synchronous part, up to the first `await`.
* The function body of the component (the derived `filteredRequests` and the JSX that is
  returned) becomes the pure function `MiddlemanRequestsPage : State → View`.
-/

namespace Agrotech

/-! ## Data model -/

/-- Lower-casing as done by `String.prototype.toLowerCase`, on the letters `A`–`Z`.
Characters outside `A`–`Z` are left as they are.  The component only ever compares the
result with the words `pending` and `fulfilled`; none of their letters is the lower-case
image of a character outside `A`–`Z`, so those comparisons are not affected. -/
def toLowerCase (s : String) : String := ⟨s.data.map Char.toLower⟩

/-- One element of the array returned by the list endpoint.  Only the fields the component
reads are kept.  `id` is carried as the text that interpolation into a template literal
produces; `quantity` and `price` are only ever displayed. -/
structure PurchaseRequest where
  id : String
  cropType : String
  quantity : Nat
  status : String
  farmerUsername : String
  middlemanUsername : Option String
  requestDate : String
  price : Nat
deriving DecidableEq, Repr

/-- A profile record: an object owned by the profile service, handed unchanged to
`UserProfileModal`. -/
structure UserProfile where
  username : String
  fields : List (String × String)
deriving DecidableEq, Repr

/-- A non-null `res.data` of the profile endpoint.  Line 45 stores whatever the response
carries, so besides a profile object the payload may be a string (an empty body arrives
as the empty string), a number or a boolean; `null` is the `none` of `Option ProfileData`.
Numbers are kept as integers: only whether the number is zero matters below. -/
inductive ProfileData where
  | object (profile : UserProfile)
  | string (text : String)
  | number (value : Int)
  | boolean (value : Bool)
deriving DecidableEq, Repr

/-- The five `useState` cells of the component (lines 8–12). -/
structure State where
  requests : List PurchaseRequest
  viewingUser : Option ProfileData
  loading : Bool
  error : Option String
  filter : String
deriving DecidableEq, Repr

/-- The initial values given to `useState`. -/
def State.initial : State :=
  { requests := [], viewingUser := none, loading := true, error := none, filter := "all" }

/-! ## Backend calls and traces -/

/-- A call made through the `useApi` client. -/
inductive Call where
  | get (url : String)
  | put (url : String)
deriving DecidableEq, Repr

/-- What an observer of the component sees, in order. -/
inductive Event where
  | issued (c : Call)
  | resolved (c : Call)
  | rejected (c : Call)
  | consoleError (label : String)
deriving DecidableEq, Repr

/-- A settled promise: `ok data` is a response whose `data` payload is `data`, `error e`
a rejection. -/
abbrev Response (α : Type) := Except String α

/-- The backend seen through the client.  Each answer may depend on the length of the
trace at the moment the call is issued, so the same URL can be answered differently at
different times.  The three fields follow the three call sites of the component and the
payload each of them expects. -/
structure Backend where
  getRequests : Nat → String → Response (List PurchaseRequest)
  getUser : Nat → String → Response (Option ProfileData)
  put : Nat → String → Response Unit

/-- The event recorded when an awaited call settles. -/
def settled {α : Type} (c : Call) : Response α → Event
  | .ok _ => .resolved c
  | .error _ => .rejected c

/-- Handler programs. -/
inductive Prog where
  | done : Prog
  | setRequests (v : List PurchaseRequest) (k : Prog) : Prog
  | setViewingUser (v : Option ProfileData) (k : Prog) : Prog
  | setLoading (v : Bool) (k : Prog) : Prog
  | setError (v : Option String) (k : Prog) : Prog
  | setFilter (v : String) (k : Prog) : Prog
  | consoleError (label : String) (k : Prog) : Prog
  | awaitGetRequests (url : String) (k : Response (List PurchaseRequest) → Prog) : Prog
  | awaitGetUser (url : String) (k : Response (Option ProfileData) → Prog) : Prog
  | awaitPut (url : String) (k : Response Unit → Prog) : Prog

/-- Run a handler to completion against a backend. -/
def Prog.run (b : Backend) : Prog → State → List Event → State × List Event
  | .done, s, t => (s, t)
  | .setRequests v k, s, t => k.run b { s with requests := v } t
  | .setViewingUser v k, s, t => k.run b { s with viewingUser := v } t
  | .setLoading v k, s, t => k.run b { s with loading := v } t
  | .setError v k, s, t => k.run b { s with error := v } t
  | .setFilter v k, s, t => k.run b { s with filter := v } t
  | .consoleError l k, s, t => k.run b s (t ++ [.consoleError l])
  | .awaitGetRequests url k, s, t =>
      (k (b.getRequests t.length url)).run b s
        (t ++ [.issued (.get url), settled (.get url) (b.getRequests t.length url)])
  | .awaitGetUser url k, s, t =>
      (k (b.getUser t.length url)).run b s
        (t ++ [.issued (.get url), settled (.get url) (b.getUser t.length url)])
  | .awaitPut url k, s, t =>
      (k (b.put t.length url)).run b s
        (t ++ [.issued (.put url), settled (.put url) (b.put t.length url)])

/-- Run only the synchronous part of a handler: the state writes made before the first
`await`, and the call that is then in flight (if any). -/
def Prog.untilAwait : Prog → State → State × Option Call
  | .done, s => (s, none)
  | .setRequests v k, s => k.untilAwait { s with requests := v }
  | .setViewingUser v k, s => k.untilAwait { s with viewingUser := v }
  | .setLoading v k, s => k.untilAwait { s with loading := v }
  | .setError v k, s => k.untilAwait { s with error := v }
  | .setFilter v k, s => k.untilAwait { s with filter := v }
  | .consoleError _ k, s => k.untilAwait s
  | .awaitGetRequests url _, s => (s, some (.get url))
  | .awaitGetUser url _, s => (s, some (.get url))
  | .awaitPut url _, s => (s, some (.put url))

/-- The backend calls of a trace, in the order they were issued. -/
def issuedCalls : List Event → List Call
  | [] => []
  | .issued c :: t => c :: issuedCalls t
  | _ :: t => issuedCalls t

/-! ## The handlers -/

/-- The list endpoint. -/
def listEndpoint : String := "/api/purchase-requests/all-pending"

/-- Lines 14–25.  `k` is what the caller does once the returned promise resolves; the
promise never rejects, since the `catch` block handles the failure of the call. -/
def fetchRequests (k : Prog) : Prog :=
  .setLoading true <|
  .awaitGetRequests listEndpoint fun
    | .ok data => .setRequests data <| .setLoading false k
    | .error _ =>
        .setError (some "Failed to fetch requests. Please try again.") <|
        .setLoading false <|
        .consoleError "Fetch error:" k

/-- Lines 27–29: the mount effect. -/
def onMount : Prog := fetchRequests .done

/-- Line 33. -/
def newStatus (currentStatus : String) : String :=
  if toLowerCase currentStatus = "pending" then "fulfilled" else "pending"

/-- The template literal of line 34. -/
def statusUrl (id status : String) : String :=
  "/api/purchase-requests/" ++ id ++ "/status?status=" ++ status

/-- Lines 31–40. -/
def toggleStatus (id currentStatus : String) : Prog :=
  .awaitPut (statusUrl id (newStatus currentStatus)) fun
    | .ok _ => fetchRequests .done
    | .error _ =>
        .setError (some ("Failed to update status for request " ++ id ++ ".")) <|
        .consoleError "Status update error:" .done

/-- The template literal of line 44. -/
def userUrl (username : String) : String := "/api/user/" ++ username

/-- Lines 42–50. -/
def viewProfile (username : String) : Prog :=
  .awaitGetUser (userUrl username) fun
    | .ok data => .setViewingUser data .done
    | .error _ =>
        .setError (some ("Failed to fetch profile for " ++ username ++ ".")) <|
        .consoleError "Profile fetch error:" .done

/-- The `onClick` / `onClose` closures that the rendered view carries. -/
inductive Handler where
  | retry
  | setFilter (value : String)
  | toggleStatus (id status : String)
  | viewProfile (username : String)
  | closeProfile
deriving DecidableEq, Repr

/-- The body of each closure (lines 74–78, 105, 112, 119, 194, 201, 216). -/
def Handler.prog : Handler → Prog
  | .retry => .setError none <| .setLoading true <| fetchRequests .done
  | .setFilter value => .setFilter value .done
  | .toggleStatus id status => Agrotech.toggleStatus id status
  | .viewProfile username => Agrotech.viewProfile username
  | .closeProfile => .setViewingUser none .done

/-! ## Rendering -/

/-- Lines 52–55. -/
def filteredRequests (requests : List PurchaseRequest) (filter : String) :
    List PurchaseRequest :=
  requests.filter fun request =>
    if filter = "all" then true else decide (toLowerCase request.status = filter)

/-- Truthiness of a value that is `null` or a string. -/
def truthy : Option String → Bool
  | none => false
  | some v => decide (v ≠ "")

/-- One button of the filter group (lines 102–122). -/
structure FilterButton where
  className : String
  onClick : Handler
  label : String
deriving DecidableEq, Repr

/-- One request card (lines 135–207). -/
structure Card where
  key : String
  cropType : String
  quantity : Nat
  statusBadgeClass : String
  status : String
  farmerUsername : String
  requestDate : String
  price : Nat
  middleman : Option String
  toggleClass : String
  toggleIcon : String
  toggleLabel : String
  toggleOnClick : Handler
  profileOnClick : Handler
deriving DecidableEq, Repr

/-- The callback of `filteredRequests.map` (lines 134–208). -/
def card (request : PurchaseRequest) : Card :=
  let isPending : Bool := decide (toLowerCase request.status = "pending")
  { key := request.id
    cropType := request.cropType
    quantity := request.quantity
    statusBadgeClass := "badge " ++ (if isPending then "bg-warning" else "bg-success")
    status := request.status
    farmerUsername := request.farmerUsername
    requestDate := request.requestDate
    price := request.price
    middleman := if truthy request.middlemanUsername then request.middlemanUsername else none
    toggleClass := "btn " ++ (if isPending then "btn-success" else "btn-warning") ++ " btn-lg"
    toggleIcon := "bi " ++ (if isPending then "bi-check-circle" else "bi-arrow-counterclockwise")
      ++ " me-2"
    toggleLabel := if isPending then "Accept Request" else "Mark as Pending"
    toggleOnClick := .toggleStatus request.id request.status
    profileOnClick := .viewProfile request.farmerUsername }

/-- The part of the page below the filter group (lines 126–210). -/
inductive Body where
  | emptyState (heading : String) (text : String)
  | requestsList (cards : List Card)
deriving DecidableEq, Repr

/-- What line 215, `viewingUser && <UserProfileModal … />`, puts on the page: the modal
when `viewingUser` is truthy, and otherwise the falsy value itself, of which only the
number zero is displayed (as the text `0`). -/
inductive OverlaySlot where
  | modal (user : ProfileData) (onClose : Handler)
  | text (content : String)
  | nothing
deriving DecidableEq, Repr

/-- What the component returns. -/
inductive View where
  | spinner (text : String)
  | alert (message : String) (buttonLabel : String) (onClick : Handler)
  | page (filterControls : List FilterButton) (body : Body) (overlay : OverlaySlot)
deriving DecidableEq, Repr

/-- Truthiness of a non-null payload: an object is truthy, a string unless it is empty,
a number unless it is zero, a boolean when it is `true`. -/
def ProfileData.truthy : ProfileData → Bool
  | .object _ => true
  | .string text => decide (text ≠ "")
  | .number value => decide (value ≠ 0)
  | .boolean value => value

/-- Lines 215–217. -/
def overlaySlot : Option ProfileData → OverlaySlot
  | none => .nothing
  | some user =>
      if user.truthy then .modal user .closeProfile
      else match user with
        | .number _ => .text "0"
        | _ => .nothing

/-- Lines 100–124. -/
def filterControls (filter : String) : List FilterButton :=
  [ { className := "btn " ++ (if filter = "all" then "btn-success" else "btn-outline-success")
      onClick := .setFilter "all"
      label := "All Requests" },
    { className := "btn " ++ (if filter = "pending" then "btn-warning" else "btn-outline-warning")
      onClick := .setFilter "pending"
      label := "Pending" },
    { className := "btn " ++ (if filter = "fulfilled" then "btn-primary" else "btn-outline-primary")
      onClick := .setFilter "fulfilled"
      label := "Fulfilled" } ]

/-- Lines 126–210. -/
def body (requests : List PurchaseRequest) (filter : String) : Body :=
  if (filteredRequests requests filter).length = 0 then
    .emptyState "No requests found"
      ("There are currently no " ++ (if filter = "all" then "" else filter)
        ++ " requests available")
  else
    .requestsList ((filteredRequests requests filter).map card)

/-- Lines 57–219: the value returned by the component for the current state. -/
def MiddlemanRequestsPage (s : State) : View :=
  if s.loading then
    .spinner "Loading..."
  else if truthy s.error then
    .alert (s.error.getD "") "Retry" .retry
  else
    .page (filterControls s.filter) (body s.requests s.filter) (overlaySlot s.viewingUser)

/-- The request cards present in a view. -/
def View.cards : View → List Card
  | .page _ (.requestsList cards) _ => cards
  | _ => []

/-- The data shown by the overlay of a view, if the overlay is open. -/
def View.overlay : View → Option ProfileData
  | .page _ _ (.modal user _) => some user
  | _ => none

/-- Whether a view is the error view. -/
def View.isAlert : View → Bool
  | .alert _ _ _ => true
  | _ => false

/-! ## Sample data -/

/-- Three requests: one pending, one fulfilled, one with a status that is neither. -/
def sampleRequests : List PurchaseRequest :=
  [ { id := "1", cropType := "Wheat", quantity := 100, status := "Pending",
      farmerUsername := "asha", middlemanUsername := none,
      requestDate := "2024-01-05", price := 22 },
    { id := "2", cropType := "Rice", quantity := 40, status := "Fulfilled",
      farmerUsername := "ravi", middlemanUsername := some "meera",
      requestDate := "2024-01-06", price := 35 },
    { id := "3", cropType := "Maize", quantity := 75, status := "Cancelled",
      farmerUsername := "asha", middlemanUsername := some "",
      requestDate := "2024-01-07", price := 18 } ]

/-- A profile as the profile endpoint could return it. -/
def sampleProfile : UserProfile :=
  { username := "asha", fields := [("role", "FARMER"), ("village", "Rampur")] }

/-- A backend that accepts every call. -/
def acceptingBackend : Backend :=
  { getRequests := fun _ _ => .ok sampleRequests
    getUser := fun _ _ => .ok (some (.object sampleProfile))
    put := fun _ _ => .ok () }

/-- A backend whose profile endpoint answers every call with an empty body. -/
def emptyBodyBackend : Backend :=
  { getRequests := fun _ _ => .ok sampleRequests
    getUser := fun _ _ => .ok (some (.string ""))
    put := fun _ _ => .ok () }

/-- A backend whose profile endpoint answers every call with `null`. -/
def nullProfileBackend : Backend :=
  { getRequests := fun _ _ => .ok sampleRequests
    getUser := fun _ _ => .ok none
    put := fun _ _ => .ok () }

/-- A backend that rejects every call. -/
def rejectingBackend : Backend :=
  { getRequests := fun _ _ => .error "Network Error"
    getUser := fun _ _ => .error "Network Error"
    put := fun _ _ => .error "Network Error" }

/-- A ready state showing the sample requests. -/
def readyState : State :=
  { requests := sampleRequests, viewingUser := none, loading := false, error := none,
    filter := "all" }

/-- A state in which an earlier profile fetch has left its message in `error`. -/
def staleErrorState : State :=
  { requests := [], viewingUser := none, loading := false,
    error := some "Failed to fetch profile for asha.", filter := "all" }

/-! ## Running the handlers -/

theorem issuedCalls_append (t u : List Event) :
    issuedCalls (t ++ u) = issuedCalls t ++ issuedCalls u := by
  induction t with
  | nil => rfl
  | cons e t ih => cases e <;> simp [issuedCalls, ih]

/-- The outcome of `fetchRequests`, by the answer of the list endpoint. -/
theorem run_fetchRequests (b : Backend) (s : State) (t : List Event) :
    (fetchRequests .done).run b s t =
      match b.getRequests t.length listEndpoint with
      | .ok data =>
          ({ s with requests := data, loading := false },
            t ++ [.issued (.get listEndpoint), .resolved (.get listEndpoint)])
      | .error _ =>
          ({ s with error := some "Failed to fetch requests. Please try again.",
                    loading := false },
            t ++ [.issued (.get listEndpoint), .rejected (.get listEndpoint),
              .consoleError "Fetch error:"]) := by
  cases h : b.getRequests t.length listEndpoint <;>
    simp [fetchRequests, Prog.run, h, settled]

/-- The outcome of `toggleStatus` when the update is rejected. -/
theorem run_toggleStatus_rejected (b : Backend) (s : State) (t : List Event)
    (id currentStatus e : String)
    (h : b.put t.length (statusUrl id (newStatus currentStatus)) = .error e) :
    (toggleStatus id currentStatus).run b s t =
      ({ s with error := some ("Failed to update status for request " ++ id ++ ".") },
        t ++ [.issued (.put (statusUrl id (newStatus currentStatus))),
          .rejected (.put (statusUrl id (newStatus currentStatus))),
          .consoleError "Status update error:"]) := by
  simp [toggleStatus, Prog.run, h, settled]

/-- The outcome of `toggleStatus` when the update is accepted: the rest is
`fetchRequests`, started two events later. -/
theorem run_toggleStatus_accepted (b : Backend) (s : State) (t : List Event)
    (id currentStatus : String)
    (h : b.put t.length (statusUrl id (newStatus currentStatus)) = .ok ()) :
    (toggleStatus id currentStatus).run b s t =
      (fetchRequests .done).run b s
        (t ++ [.issued (.put (statusUrl id (newStatus currentStatus))),
          .resolved (.put (statusUrl id (newStatus currentStatus)))]) := by
  simp [toggleStatus, Prog.run, h, settled]

/-- The calls issued by `toggleStatus`. -/
theorem calls_toggleStatus (b : Backend) (s : State) (t : List Event)
    (id currentStatus : String) :
    issuedCalls ((toggleStatus id currentStatus).run b s t).2 =
      issuedCalls t ++ Call.put (statusUrl id (newStatus currentStatus)) ::
        (match b.put t.length (statusUrl id (newStatus currentStatus)) with
          | .ok _ => [Call.get listEndpoint]
          | .error _ => []) := by
  cases h : b.put t.length (statusUrl id (newStatus currentStatus)) with
  | error e =>
      rw [run_toggleStatus_rejected b s t id currentStatus e h]
      simp [issuedCalls_append, issuedCalls]
  | ok u =>
      cases u
      rw [run_toggleStatus_accepted b s t id currentStatus h, run_fetchRequests]
      split <;> simp [issuedCalls_append, issuedCalls]

/-! ## The filtered view -/

/-- Two views selected by mutually exclusive tests together hold at most as many elements
as the list, with equality exactly when every element passes one of the tests. -/
theorem filter_exclusive {α : Type} (p q : α → Bool) (hpq : ∀ x, p x = true → q x = false)
    (l : List α) :
    (l.filter p).length + (l.filter q).length ≤ l.length ∧
    ((l.filter p).length + (l.filter q).length = l.length ↔
      ∀ x ∈ l, p x = true ∨ q x = true) := by
  induction l with
  | nil => simp
  | cons a l ih =>
      obtain ⟨hle, heq⟩ := ih
      cases hp : p a <;> cases hq : q a
      · simp only [List.filter_cons, hp, hq, List.length_cons, List.mem_cons,
          Bool.false_eq_true, if_false, forall_eq_or_imp, or_self, false_and, iff_false]
        omega
      · simp only [List.filter_cons, hp, hq, List.length_cons, List.mem_cons,
          Bool.false_eq_true, if_false, if_true, forall_eq_or_imp, or_true, true_and, ← heq]
        omega
      · simp only [List.filter_cons, hp, hq, List.length_cons, List.mem_cons,
          Bool.false_eq_true, if_false, if_true, forall_eq_or_imp, true_or, true_and, ← heq]
        omega
      · have := hpq a hp
        simp [hq] at this

/-- An element occurs in a filtered list as often as in the list when it passes the test,
and not at all otherwise. -/
theorem count_filter_ite {α : Type} [DecidableEq α] (p : α → Bool) (l : List α) (a : α) :
    (l.filter p).count a = if p a = true then l.count a else 0 := by
  by_cases h : p a = true
  · simp [h, List.count_filter]
  · rw [if_neg h, List.count_eq_zero]
    intro hm
    exact h (List.mem_filter.mp hm).2

/-- The filtered view under a filter other than `all`. -/
theorem filteredRequests_of_ne_all (requests : List PurchaseRequest) (f : String)
    (hf : f ≠ "all") :
    filteredRequests requests f =
      requests.filter (fun r => decide (toLowerCase r.status = f)) := by
  simp [filteredRequests, hf]

/-- C1. With filter `all` the filtered view is the fetched list itself; with filter
`pending` (resp. `fulfilled`) it is the list filtered by "the lower-cased status equals
`pending`" (resp. `fulfilled`): a sublist of the fetched list, in the same order, in which
every request passing the test occurs as often as in the fetched list and no other request
occurs. The fetched list is an input of the view and is not rewritten by it. -/
theorem filteredRequests_view (requests : List PurchaseRequest) :
    filteredRequests requests "all" = requests ∧
    filteredRequests requests "pending" =
      requests.filter (fun r => decide (toLowerCase r.status = "pending")) ∧
    filteredRequests requests "fulfilled" =
      requests.filter (fun r => decide (toLowerCase r.status = "fulfilled")) ∧
    (∀ f, f ∈ ["all", "pending", "fulfilled"] →
      List.Sublist (filteredRequests requests f) requests) ∧
    (∀ f, f ∈ ["pending", "fulfilled"] → ∀ r,
      (filteredRequests requests f).count r =
        if toLowerCase r.status = f then requests.count r else 0) := by
  refine ⟨?_, ?_, ?_, ?_, ?_⟩
  · simp [filteredRequests]
  · simp [filteredRequests]
  · simp [filteredRequests]
  · intro f _
    exact List.filter_sublist _
  · intro f hf r
    have hall : f ≠ "all" := by
      intro h
      subst h
      simp at hf
    rw [filteredRequests_of_ne_all requests f hall, count_filter_ite]
    simp

/-- C10. The `pending` and `fulfilled` views share no request; together they hold at most
as many requests as the `all` view, with equality exactly when every status is `pending`
or `fulfilled` up to letter case; a request with any other status is in the `all` view,
in neither of the other two, and toggling it first issues the update asking for
`pending`. -/
theorem pending_fulfilled_partition (requests : List PurchaseRequest) :
    List.Disjoint (filteredRequests requests "pending")
      (filteredRequests requests "fulfilled") ∧
    (filteredRequests requests "pending").length +
        (filteredRequests requests "fulfilled").length ≤
      (filteredRequests requests "all").length ∧
    ((filteredRequests requests "pending").length +
        (filteredRequests requests "fulfilled").length =
      (filteredRequests requests "all").length ↔
      ∀ r ∈ requests,
        toLowerCase r.status = "pending" ∨ toLowerCase r.status = "fulfilled") ∧
    (∀ r ∈ requests,
      toLowerCase r.status ≠ "pending" → toLowerCase r.status ≠ "fulfilled" →
        r ∈ filteredRequests requests "all" ∧
        r ∉ filteredRequests requests "pending" ∧
        r ∉ filteredRequests requests "fulfilled" ∧
        ∀ (b : Backend) (s : State) (t : List Event), ∃ rest,
          issuedCalls ((toggleStatus r.id r.status).run b s t).2 =
            issuedCalls t ++ Call.put (statusUrl r.id "pending") :: rest) := by
  have hall : filteredRequests requests "all" = requests := by simp [filteredRequests]
  have hp := filteredRequests_of_ne_all requests "pending" (by decide)
  have hf := filteredRequests_of_ne_all requests "fulfilled" (by decide)
  have hex : ∀ r : PurchaseRequest,
      decide (toLowerCase r.status = "pending") = true →
        decide (toLowerCase r.status = "fulfilled") = false := by
    intro r h
    have h1 : toLowerCase r.status = "pending" := of_decide_eq_true h
    simp [h1]
  have hlen := filter_exclusive _ _ hex requests
  rw [hall, hp, hf]
  refine ⟨?_, hlen.1, ?_, ?_⟩
  · intro r h1 h2
    have e1 := (List.mem_filter.mp h1).2
    have e2 := (List.mem_filter.mp h2).2
    rw [hex r e1] at e2
    exact Bool.false_ne_true e2
  · rw [hlen.2]
    simp
  · intro r hr n1 n2
    refine ⟨hr, ?_, ?_, ?_⟩
    · simp [List.mem_filter, n1]
    · simp [List.mem_filter, n2]
    · intro b s t
      have hn : newStatus r.status = "pending" := by simp [newStatus, n1]
      rw [calls_toggleStatus, hn]
      exact ⟨_, rfl⟩

/-! ## Toggling a status -/

/-- The update URL with the new status written out. -/
theorem statusUrl_literal (id : String) :
    statusUrl id "fulfilled" = "/api/purchase-requests/" ++ id ++ "/status?status=fulfilled" ∧
    statusUrl id "pending" = "/api/purchase-requests/" ++ id ++ "/status?status=pending" := by
  constructor <;>
    · unfold statusUrl
      rw [String.append_assoc ("/api/purchase-requests/" ++ id)]
      rfl

/-- C2. The calls issued by `toggleStatus(id, currentStatus)` start with a PUT to
`/api/purchase-requests/{id}/status?status={newStatus}` and contain no other PUT, where
`newStatus` is `fulfilled` when the current status is `pending` up to letter case, and
`pending` when it is `fulfilled` up to letter case. -/
theorem toggleStatus_first_call (b : Backend) (s : State) (t : List Event)
    (id currentStatus : String) :
    (toLowerCase currentStatus = "pending" →
      ∃ rest, issuedCalls ((toggleStatus id currentStatus).run b s t).2 =
          issuedCalls t ++
            Call.put ("/api/purchase-requests/" ++ id ++ "/status?status=fulfilled") :: rest ∧
        ∀ url, Call.put url ∉ rest) ∧
    (toLowerCase currentStatus = "fulfilled" →
      ∃ rest, issuedCalls ((toggleStatus id currentStatus).run b s t).2 =
          issuedCalls t ++
            Call.put ("/api/purchase-requests/" ++ id ++ "/status?status=pending") :: rest ∧
        ∀ url, Call.put url ∉ rest) := by
  have hrest : ∀ url, Call.put url ∉
      (match b.put t.length (statusUrl id (newStatus currentStatus)) with
        | .ok _ => [Call.get listEndpoint]
        | .error _ => []) := by
    intro url
    split <;> simp
  constructor
  · intro h
    have hn : newStatus currentStatus = "fulfilled" := by simp [newStatus, h]
    refine ⟨_, ?_, hrest⟩
    rw [calls_toggleStatus, hn, (statusUrl_literal id).1]
  · intro h
    have hn : newStatus currentStatus = "pending" := by simp [newStatus, h]
    refine ⟨_, ?_, hrest⟩
    rw [calls_toggleStatus, hn, (statusUrl_literal id).2]

/-- C3. When the PUT of a toggle is accepted, the trace grows by: the PUT issued, the PUT
resolved, one GET to the list endpoint issued, and then the settling of that GET with no
further call; the number of calls to the list endpoint grows by exactly one; if the GET
succeeds the state is the prior state with `requests` replaced by the response data, and
if it fails `requests` is the prior list. -/
theorem toggleStatus_refetch (b : Backend) (s : State) (t : List Event)
    (id currentStatus : String)
    (hput : b.put t.length (statusUrl id (newStatus currentStatus)) = .ok ()) :
    (∃ tail, ((toggleStatus id currentStatus).run b s t).2 =
        t ++ [Event.issued (.put (statusUrl id (newStatus currentStatus))),
              Event.resolved (.put (statusUrl id (newStatus currentStatus))),
              Event.issued (.get listEndpoint)] ++ tail ∧
        issuedCalls tail = []) ∧
    (issuedCalls ((toggleStatus id currentStatus).run b s t).2).count (.get listEndpoint) =
      (issuedCalls t).count (.get listEndpoint) + 1 ∧
    (∀ data, b.getRequests (t.length + 2) listEndpoint = .ok data →
      ((toggleStatus id currentStatus).run b s t).1 =
        { s with requests := data, loading := false }) ∧
    (∀ e, b.getRequests (t.length + 2) listEndpoint = .error e →
      ((toggleStatus id currentStatus).run b s t).1.requests = s.requests) := by
  have hcalls := calls_toggleStatus b s t id currentStatus
  rw [hput] at hcalls
  have hrun := run_toggleStatus_accepted b s t id currentStatus hput
  rw [run_fetchRequests] at hrun
  have hlen : (t ++ [Event.issued (.put (statusUrl id (newStatus currentStatus))),
      Event.resolved (.put (statusUrl id (newStatus currentStatus)))]).length = t.length + 2 := by
    simp
  rw [hlen] at hrun
  refine ⟨?_, ?_, ?_, ?_⟩
  · cases hg : b.getRequests (t.length + 2) listEndpoint with
    | ok data =>
        rw [hg] at hrun
        exact ⟨[Event.resolved (.get listEndpoint)], by rw [hrun]; simp, rfl⟩
    | error e =>
        rw [hg] at hrun
        exact ⟨[Event.rejected (.get listEndpoint), Event.consoleError "Fetch error:"],
          by rw [hrun]; simp, rfl⟩
  · rw [hcalls]
    simp [List.count_append, List.count_cons]
  · intro data hg
    rw [hg] at hrun
    rw [hrun]
  · intro e hg
    rw [hg] at hrun
    rw [hrun]

/-- C5. When the PUT of a toggle is rejected, the state afterwards is the prior state with
only `error` changed, to `Failed to update status for request {id}.`; in particular
`requests` is the prior list; and no call to the list endpoint is made. -/
theorem toggleStatus_failure (b : Backend) (s : State) (t : List Event)
    (id currentStatus e : String)
    (hput : b.put t.length (statusUrl id (newStatus currentStatus)) = .error e) :
    ((toggleStatus id currentStatus).run b s t).1.error =
      some ("Failed to update status for request " ++ id ++ ".") ∧
    ((toggleStatus id currentStatus).run b s t).1.requests = s.requests ∧
    ((toggleStatus id currentStatus).run b s t).1 =
      { s with error := some ("Failed to update status for request " ++ id ++ ".") } ∧
    issuedCalls ((toggleStatus id currentStatus).run b s t).2 =
      issuedCalls t ++ [Call.put (statusUrl id (newStatus currentStatus))] := by
  have hcalls := calls_toggleStatus b s t id currentStatus
  rw [hput] at hcalls
  rw [hcalls, run_toggleStatus_rejected b s t id currentStatus e hput]
  exact ⟨rfl, rfl, rfl, rfl⟩

/-! ## Loading the list -/

/-- C4, as the code has it. A successful `fetchRequests` replaces `requests` by the
response data, ends with `loading` false and leaves `error` exactly as it was before the
call; a failed one sets `error` to `Failed to fetch requests. Please try again.`; the Retry
control clears `error` before it calls `fetchRequests`, so a successful load started by
Retry ends with `error` null, and so does a successful load started with `error` null. -/
theorem fetchRequests_outcome (b : Backend) (s : State) (t : List Event) :
    (∀ data, b.getRequests t.length listEndpoint = .ok data →
      ((fetchRequests .done).run b s t).1 = { s with requests := data, loading := false } ∧
      ((fetchRequests .done).run b s t).1.requests = data ∧
      ((fetchRequests .done).run b s t).1.error = s.error ∧
      (s.error = none → ((fetchRequests .done).run b s t).1.error = none) ∧
      (Handler.retry.prog.run b s t).1.requests = data ∧
      (Handler.retry.prog.run b s t).1.error = none) ∧
    (∀ e, b.getRequests t.length listEndpoint = .error e →
      ((fetchRequests .done).run b s t).1.error =
        some "Failed to fetch requests. Please try again." ∧
      ((fetchRequests .done).run b s t).1.error ≠ none) := by
  constructor
  · intro data h
    have hretry : Handler.retry.prog.run b s t =
        (fetchRequests .done).run b { s with error := none, loading := true } t := rfl
    rw [hretry, run_fetchRequests, run_fetchRequests, h]
    exact ⟨rfl, rfl, rfl, fun h0 => h0, rfl, rfl⟩
  · intro e h
    rw [run_fetchRequests, h]
    exact ⟨rfl, by simp⟩

/-- C4, as the claim has it, fails: a successful load started while `error` holds a
message ends with that message still in `error`. -/
theorem fetchRequests_success_keeps_error :
    acceptingBackend.getRequests ([] : List Event).length listEndpoint = .ok sampleRequests ∧
    ((fetchRequests .done).run acceptingBackend staleErrorState []).1.requests =
      sampleRequests ∧
    ((fetchRequests .done).run acceptingBackend staleErrorState []).1.error =
      some "Failed to fetch profile for asha." ∧
    ¬ (∀ (b : Backend) (s : State) (t : List Event) (data : List PurchaseRequest),
        b.getRequests t.length listEndpoint = .ok data →
          ((fetchRequests .done).run b s t).1.requests = data ∧
          ((fetchRequests .done).run b s t).1.error = none) := by
  refine ⟨rfl, rfl, rfl, ?_⟩
  intro h
  have h1 := (h acceptingBackend staleErrorState [] sampleRequests rfl).2
  have h2 : ((fetchRequests .done).run acceptingBackend staleErrorState []).1.error =
      some "Failed to fetch profile for asha." := rfl
  rw [h2] at h1
  exact Option.noConfusion h1

/-! ## Viewing a profile -/

/-- The outcome of `viewProfile`, by the answer of the profile endpoint. -/
theorem run_viewProfile (b : Backend) (s : State) (t : List Event) (username : String) :
    (viewProfile username).run b s t =
      match b.getUser t.length (userUrl username) with
      | .ok data =>
          ({ s with viewingUser := data },
            t ++ [.issued (.get (userUrl username)), .resolved (.get (userUrl username))])
      | .error _ =>
          ({ s with error := some ("Failed to fetch profile for " ++ username ++ ".") },
            t ++ [.issued (.get (userUrl username)), .rejected (.get (userUrl username)),
              .consoleError "Profile fetch error:"]) := by
  cases h : b.getUser t.length (userUrl username) <;>
    simp [viewProfile, Prog.run, h, settled]

/-- A template literal that starts with fixed text is not the empty string. -/
theorem append_ne_empty (a b c : String) (ha : a ≠ "") : a ++ b ++ c ≠ "" := by
  intro h
  have hd := congrArg String.data h
  simp only [String.data_append, List.append_assoc] at hd
  have ha2 : a.data ≠ [] := by
    intro h0
    apply ha
    cases a
    simp_all
  cases hx : a.data with
  | nil => exact ha2 hx
  | cons x xs =>
      rw [hx] at hd
      simp at hd

/-- The overlay slot for a truthy payload is the modal showing that payload, with
`closeProfile` as its `onClose`. -/
theorem overlaySlot_truthy (user : ProfileData) (h : user.truthy = true) :
    overlaySlot (some user) = .modal user .closeProfile := by
  simp [overlaySlot, h]

/-- The overlay slot for a falsy payload is not a modal. -/
theorem overlaySlot_falsy (user : ProfileData) (h : user.truthy = false) :
    overlaySlot (some user) = .nothing ∨ overlaySlot (some user) = .text "0" := by
  cases user <;> simp_all [overlaySlot, ProfileData.truthy]

/-- C6, as the code has it. From a ready state with the overlay closed,
`viewProfile(username)` issues one GET to `/api/user/{username}`. If it succeeds, the
state afterwards is the prior state with `viewingUser` set to the returned data and
`error` still null; the component then renders the page, with `UserProfileModal` showing
exactly that data when the data is truthy (as every profile object is), and with no
overlay when the data is falsy (`null`, the empty string, zero, `false`). If the GET
fails, `viewingUser` is still null, `error` is `Failed to fetch profile for {username}.`,
and the component renders the error view, which has no overlay. -/
theorem viewProfile_overlay (b : Backend) (s : State) (t : List Event) (username : String)
    (hv : s.viewingUser = none) (hl : s.loading = false) (he : s.error = none) :
    issuedCalls ((viewProfile username).run b s t).2 =
      issuedCalls t ++ [Call.get ("/api/user/" ++ username)] ∧
    (∀ data, b.getUser t.length ("/api/user/" ++ username) = .ok data →
      ((viewProfile username).run b s t).1 = { s with viewingUser := data } ∧
      ((viewProfile username).run b s t).1.viewingUser = data ∧
      ((viewProfile username).run b s t).1.error = none ∧
      (MiddlemanRequestsPage ((viewProfile username).run b s t).1).isAlert = false ∧
      (∀ user, data = some user → user.truthy = true →
        MiddlemanRequestsPage ((viewProfile username).run b s t).1 =
          .page (filterControls s.filter) (body s.requests s.filter)
            (.modal user Handler.closeProfile) ∧
        (MiddlemanRequestsPage ((viewProfile username).run b s t).1).overlay = some user) ∧
      (∀ profile, data = some (.object profile) →
        (MiddlemanRequestsPage ((viewProfile username).run b s t).1).overlay =
          some (.object profile)) ∧
      (data = none →
        (MiddlemanRequestsPage ((viewProfile username).run b s t).1).overlay = none) ∧
      (∀ user, data = some user → user.truthy = false →
        (MiddlemanRequestsPage ((viewProfile username).run b s t).1).overlay = none)) ∧
    (∀ e, b.getUser t.length ("/api/user/" ++ username) = .error e →
      ((viewProfile username).run b s t).1.viewingUser = none ∧
      ((viewProfile username).run b s t).1.error =
        some ("Failed to fetch profile for " ++ username ++ ".") ∧
      MiddlemanRequestsPage ((viewProfile username).run b s t).1 =
        .alert ("Failed to fetch profile for " ++ username ++ ".") "Retry" .retry ∧
      (MiddlemanRequestsPage ((viewProfile username).run b s t).1).overlay = none) := by
  have hurl : userUrl username = "/api/user/" ++ username := rfl
  rw [run_viewProfile, hurl]
  refine ⟨?_, ?_, ?_⟩
  · split <;> simp [issuedCalls_append, issuedCalls]
  · intro data h
    rw [h]
    refine ⟨rfl, rfl, he, ?_, ?_, ?_, ?_, ?_⟩
    · simp [MiddlemanRequestsPage, View.isAlert, hl, he, truthy]
    · intro user hd ht
      subst hd
      simp [MiddlemanRequestsPage, View.overlay, hl, he, truthy, overlaySlot_truthy user ht]
    · intro profile hd
      subst hd
      simp [MiddlemanRequestsPage, View.overlay, hl, he, truthy, overlaySlot,
        ProfileData.truthy]
    · intro hd
      subst hd
      simp [MiddlemanRequestsPage, View.overlay, hl, he, truthy, overlaySlot]
    · intro user hd ht
      subst hd
      rcases overlaySlot_falsy user ht with h0 | h0 <;>
        simp [MiddlemanRequestsPage, View.overlay, hl, he, truthy, h0]
  · intro e h
    rw [h]
    have hne := append_ne_empty "Failed to fetch profile for " username "." (by decide)
    simp [MiddlemanRequestsPage, View.overlay, hl, hv, truthy, hne]

/-- C6, as the claim has it, fails: from the ready state with the overlay closed, a
profile GET that succeeds with an empty body (or with `null`) leaves the overlay closed,
with no error set. -/
theorem viewProfile_success_overlay_closed :
    readyState.viewingUser = none ∧ readyState.loading = false ∧ readyState.error = none ∧
    emptyBodyBackend.getUser ([] : List Event).length ("/api/user/" ++ "asha") =
      .ok (some (.string "")) ∧
    ((viewProfile "asha").run emptyBodyBackend readyState []).1.viewingUser =
      some (.string "") ∧
    ((viewProfile "asha").run emptyBodyBackend readyState []).1.error = none ∧
    (MiddlemanRequestsPage ((viewProfile "asha").run emptyBodyBackend readyState []).1).overlay =
      none ∧
    nullProfileBackend.getUser ([] : List Event).length ("/api/user/" ++ "asha") = .ok none ∧
    (MiddlemanRequestsPage ((viewProfile "asha").run nullProfileBackend readyState []).1).overlay =
      none ∧
    ¬ (∀ (b : Backend) (s : State) (t : List Event) (username : String)
        (data : Option ProfileData),
        s.viewingUser = none → s.loading = false → s.error = none →
        b.getUser t.length ("/api/user/" ++ username) = .ok data →
          ((viewProfile username).run b s t).1.viewingUser = data ∧
          (MiddlemanRequestsPage ((viewProfile username).run b s t).1).overlay = data) := by
  refine ⟨rfl, rfl, rfl, rfl, rfl, rfl, by decide, rfl, by decide, ?_⟩
  intro h
  have h1 := (h emptyBodyBackend readyState [] "asha" (some (.string "")) rfl rfl rfl rfl).2
  have h2 : (MiddlemanRequestsPage
      ((viewProfile "asha").run emptyBodyBackend readyState []).1).overlay = none := by decide
  rw [h2] at h1
  exact Option.noConfusion h1

/-! ## The error view and Retry -/

/-- C7. After a failed list fetch, whatever the prior state, the component renders the
error view (the message and the Retry button) and no request card. Clicking Retry runs,
before anything is awaited, to the state with `error` null and `loading` true, for which
the spinner is rendered, with one GET to the list endpoint in flight; and over its whole
run, against any backend, Retry issues that one GET and no other call. -/
theorem fetch_failure_then_retry (b : Backend) (s : State) (t : List Event) (e : String)
    (hget : b.getRequests t.length listEndpoint = .error e) :
    MiddlemanRequestsPage ((fetchRequests .done).run b s t).1 =
      .alert "Failed to fetch requests. Please try again." "Retry" .retry ∧
    (MiddlemanRequestsPage ((fetchRequests .done).run b s t).1).cards = [] ∧
    Handler.retry.prog.untilAwait ((fetchRequests .done).run b s t).1 =
      ({ ((fetchRequests .done).run b s t).1 with error := none, loading := true },
        some (.get "/api/purchase-requests/all-pending")) ∧
    MiddlemanRequestsPage (Handler.retry.prog.untilAwait ((fetchRequests .done).run b s t).1).1 =
      .spinner "Loading..." ∧
    (∀ (b2 : Backend) (t2 : List Event),
      issuedCalls (Handler.retry.prog.run b2 ((fetchRequests .done).run b s t).1 t2).2 =
        issuedCalls t2 ++ [Call.get "/api/purchase-requests/all-pending"]) := by
  rw [run_fetchRequests, hget]
  refine ⟨?_, ?_, rfl, rfl, ?_⟩
  · simp [MiddlemanRequestsPage, truthy]
  · simp [MiddlemanRequestsPage, truthy, View.cards]
  · intro b2 t2
    have hretry : ∀ s0, Handler.retry.prog.run b2 s0 t2 =
        (fetchRequests .done).run b2 { s0 with error := none, loading := true } t2 :=
      fun _ => rfl
    rw [hretry, run_fetchRequests]
    split <;> simp [issuedCalls_append, issuedCalls, listEndpoint]

/-! ## The ready view -/

/-- C8. In a state that is not loading and has no error the component renders the page,
never the error view: with the empty-state block (`No requests found`) when the filtered
list is empty, and otherwise with one card per filtered request, in the order of the
filtered list. -/
theorem ready_view (s : State) (hl : s.loading = false) (he : s.error = none) :
    (MiddlemanRequestsPage s).isAlert = false ∧
    (filteredRequests s.requests s.filter = [] →
      MiddlemanRequestsPage s =
        .page (filterControls s.filter)
          (.emptyState "No requests found"
            ("There are currently no " ++ (if s.filter = "all" then "" else s.filter)
              ++ " requests available"))
          (overlaySlot s.viewingUser)) ∧
    (filteredRequests s.requests s.filter ≠ [] →
      MiddlemanRequestsPage s =
        .page (filterControls s.filter)
          (.requestsList ((filteredRequests s.requests s.filter).map card))
          (overlaySlot s.viewingUser) ∧
      (MiddlemanRequestsPage s).cards = (filteredRequests s.requests s.filter).map card ∧
      (MiddlemanRequestsPage s).cards.length = (filteredRequests s.requests s.filter).length ∧
      (MiddlemanRequestsPage s).cards.map Card.key =
        (filteredRequests s.requests s.filter).map PurchaseRequest.id) := by
  refine ⟨?_, ?_, ?_⟩
  · simp [MiddlemanRequestsPage, hl, he, truthy, View.isAlert]
  · intro h
    simp [MiddlemanRequestsPage, hl, he, truthy, body, h]
  · intro h
    have hlen : (filteredRequests s.requests s.filter).length ≠ 0 := by
      intro h0
      exact h (List.length_eq_zero.mp h0)
    have hpage : MiddlemanRequestsPage s =
        .page (filterControls s.filter)
          (.requestsList ((filteredRequests s.requests s.filter).map card))
          (overlaySlot s.viewingUser) := by
      simp [MiddlemanRequestsPage, hl, he, truthy, body, hlen]
    rw [hpage]
    refine ⟨rfl, rfl, ?_, ?_⟩
    · simp [View.cards]
    · simp [View.cards, card, Function.comp_def]

/-! ## Filter and overlay controls -/

/-- C9. Running `setFilter(value)` gives the prior state with only `filter` changed, to
`value`, and adds nothing to the trace; running the overlay's `onClose` gives the prior
state with only `viewingUser` changed, to null, and adds nothing to the trace. The three
filter buttons call `setFilter` with `all`, `pending` and `fulfilled`, and an open overlay
is rendered with that `onClose`. -/
theorem setFilter_closeProfile_frame (b : Backend) (s : State) (t : List Event)
    (value : String) :
    (Handler.setFilter value).prog.run b s t = ({ s with filter := value }, t) ∧
    ((Handler.setFilter value).prog.run b s t).1.requests = s.requests ∧
    ((Handler.setFilter value).prog.run b s t).1.loading = s.loading ∧
    ((Handler.setFilter value).prog.run b s t).1.error = s.error ∧
    ((Handler.setFilter value).prog.run b s t).1.viewingUser = s.viewingUser ∧
    ((Handler.setFilter value).prog.run b s t).1.filter = value ∧
    Handler.closeProfile.prog.run b s t = ({ s with viewingUser := none }, t) ∧
    (filterControls s.filter).map FilterButton.onClick =
      [.setFilter "all", .setFilter "pending", .setFilter "fulfilled"] ∧
    (Handler.closeProfile.prog.run b s t).1.viewingUser = none ∧
    (∀ profile : UserProfile, MiddlemanRequestsPage
        { s with viewingUser := some (.object profile), loading := false, error := none } =
      .page (filterControls s.filter) (body s.requests s.filter)
        (.modal (.object profile) Handler.closeProfile)) := by
  refine ⟨rfl, rfl, rfl, rfl, rfl, rfl, rfl, rfl, rfl, ?_⟩
  intro profile
  simp [MiddlemanRequestsPage, truthy, overlaySlot, ProfileData.truthy]

/-! ## The statements at the sample data -/

/-- C1 at the sample list: each of the three views, computed. -/
theorem filteredRequests_view_witness :
    "pending" ∈ ["all", "pending", "fulfilled"] ∧
    "fulfilled" ∈ ["pending", "fulfilled"] ∧
    List.Sublist (filteredRequests sampleRequests "pending") sampleRequests ∧
    (filteredRequests sampleRequests "fulfilled").count (sampleRequests.get ⟨1, by decide⟩) =
      (if toLowerCase (sampleRequests.get ⟨1, by decide⟩).status = "fulfilled"
        then sampleRequests.count (sampleRequests.get ⟨1, by decide⟩) else 0) ∧
    filteredRequests sampleRequests "all" = sampleRequests ∧
    (filteredRequests sampleRequests "pending").map PurchaseRequest.id = ["1"] ∧
    (filteredRequests sampleRequests "fulfilled").map PurchaseRequest.id = ["2"] :=
  ⟨by decide, by decide,
    (filteredRequests_view sampleRequests).2.2.2.1 "pending" (by decide),
    (filteredRequests_view sampleRequests).2.2.2.2 "fulfilled" (by decide) _,
    (filteredRequests_view sampleRequests).1, by decide, by decide⟩

/-- C2 at the statuses `Pending` and `Fulfilled`. -/
theorem toggleStatus_first_call_witness :
    toLowerCase "Pending" = "pending" ∧
    toLowerCase "Fulfilled" = "fulfilled" ∧
    (∃ rest, issuedCalls ((toggleStatus "1" "Pending").run acceptingBackend readyState []).2 =
        issuedCalls [] ++
          Call.put ("/api/purchase-requests/" ++ "1" ++ "/status?status=fulfilled") :: rest ∧
      ∀ url, Call.put url ∉ rest) ∧
    (∃ rest, issuedCalls ((toggleStatus "2" "Fulfilled").run rejectingBackend readyState []).2 =
        issuedCalls [] ++
          Call.put ("/api/purchase-requests/" ++ "2" ++ "/status?status=pending") :: rest ∧
      ∀ url, Call.put url ∉ rest) :=
  ⟨by decide, by decide,
    (toggleStatus_first_call acceptingBackend readyState [] "1" "Pending").1 (by decide),
    (toggleStatus_first_call rejectingBackend readyState [] "2" "Fulfilled").2 (by decide)⟩

/-- C3 at the sample data: toggling request 1 from the initial state against the accepting
backend. -/
theorem toggleStatus_refetch_witness :
    acceptingBackend.put ([] : List Event).length (statusUrl "1" (newStatus "Pending")) =
      .ok () ∧
    acceptingBackend.getRequests (([] : List Event).length + 2) listEndpoint =
      .ok sampleRequests ∧
    ((toggleStatus "1" "Pending").run acceptingBackend State.initial []).1 =
      { State.initial with requests := sampleRequests, loading := false } ∧
    (issuedCalls ((toggleStatus "1" "Pending").run acceptingBackend State.initial []).2).count
        (.get listEndpoint) =
      (issuedCalls []).count (.get listEndpoint) + 1 :=
  ⟨rfl, rfl,
    (toggleStatus_refetch acceptingBackend State.initial [] "1" "Pending" rfl).2.2.1
      sampleRequests rfl,
    (toggleStatus_refetch acceptingBackend State.initial [] "1" "Pending" rfl).2.1⟩

/-- C4 (as the code has it) at the sample data: a successful load and a successful Retry
from the state holding a stale message, and a failed load from the initial state. -/
theorem fetchRequests_outcome_witness :
    acceptingBackend.getRequests ([] : List Event).length listEndpoint = .ok sampleRequests ∧
    ((fetchRequests .done).run acceptingBackend staleErrorState []).1.error =
      staleErrorState.error ∧
    (Handler.retry.prog.run acceptingBackend staleErrorState []).1.error = none ∧
    rejectingBackend.getRequests ([] : List Event).length listEndpoint =
      .error "Network Error" ∧
    ((fetchRequests .done).run rejectingBackend State.initial []).1.error =
      some "Failed to fetch requests. Please try again." :=
  ⟨rfl,
    ((fetchRequests_outcome acceptingBackend staleErrorState []).1 sampleRequests rfl).2.2.1,
    ((fetchRequests_outcome acceptingBackend staleErrorState []).1 sampleRequests rfl).2.2.2.2.2,
    rfl,
    ((fetchRequests_outcome rejectingBackend State.initial []).2 "Network Error" rfl).1⟩

/-- C5 at the sample data: toggling request 1 against the rejecting backend. -/
theorem toggleStatus_failure_witness :
    rejectingBackend.put ([] : List Event).length (statusUrl "1" (newStatus "Pending")) =
      .error "Network Error" ∧
    ((toggleStatus "1" "Pending").run rejectingBackend readyState []).1.error =
      some ("Failed to update status for request " ++ "1" ++ ".") ∧
    ((toggleStatus "1" "Pending").run rejectingBackend readyState []).1.requests =
      readyState.requests :=
  ⟨rfl,
    (toggleStatus_failure rejectingBackend readyState [] "1" "Pending" "Network Error" rfl).1,
    (toggleStatus_failure rejectingBackend readyState [] "1" "Pending" "Network Error" rfl).2.1⟩

/-- C6 (as the code has it) at the sample data: viewing the profile of `asha` from the
ready state, against the accepting backend (a profile object), against a backend answering
with an empty body, and against the rejecting backend. -/
theorem viewProfile_overlay_witness :
    readyState.viewingUser = none ∧ readyState.loading = false ∧ readyState.error = none ∧
    acceptingBackend.getUser ([] : List Event).length ("/api/user/" ++ "asha") =
      .ok (some (.object sampleProfile)) ∧
    (ProfileData.object sampleProfile).truthy = true ∧
    (MiddlemanRequestsPage ((viewProfile "asha").run acceptingBackend readyState []).1 =
        .page (filterControls readyState.filter)
          (body readyState.requests readyState.filter)
          (.modal (.object sampleProfile) Handler.closeProfile) ∧
      (MiddlemanRequestsPage
          ((viewProfile "asha").run acceptingBackend readyState []).1).overlay =
        some (.object sampleProfile)) ∧
    emptyBodyBackend.getUser ([] : List Event).length ("/api/user/" ++ "asha") =
      .ok (some (.string "")) ∧
    (ProfileData.string "").truthy = false ∧
    (MiddlemanRequestsPage ((viewProfile "asha").run emptyBodyBackend readyState []).1).overlay =
      none ∧
    rejectingBackend.getUser ([] : List Event).length ("/api/user/" ++ "asha") =
      .error "Network Error" ∧
    ((viewProfile "asha").run rejectingBackend readyState []).1.viewingUser = none ∧
    ((viewProfile "asha").run rejectingBackend readyState []).1.error =
      some ("Failed to fetch profile for " ++ "asha" ++ ".") :=
  ⟨rfl, rfl, rfl, rfl, rfl,
    ((viewProfile_overlay acceptingBackend readyState [] "asha" rfl rfl rfl).2.1
      (some (.object sampleProfile)) rfl).2.2.2.2.1 (.object sampleProfile) rfl rfl,
    rfl, by decide,
    ((viewProfile_overlay emptyBodyBackend readyState [] "asha" rfl rfl rfl).2.1
      (some (.string "")) rfl).2.2.2.2.2.2.2 (.string "") rfl (by decide),
    rfl,
    ((viewProfile_overlay rejectingBackend readyState [] "asha" rfl rfl rfl).2.2
      "Network Error" rfl).1,
    ((viewProfile_overlay rejectingBackend readyState [] "asha" rfl rfl rfl).2.2
      "Network Error" rfl).2.1⟩

/-- C7 at the sample data: a failed load from the ready state, which holds three
requests. -/
theorem fetch_failure_then_retry_witness :
    rejectingBackend.getRequests ([] : List Event).length listEndpoint =
      .error "Network Error" ∧
    ((fetchRequests .done).run rejectingBackend readyState []).1.requests = sampleRequests ∧
    MiddlemanRequestsPage ((fetchRequests .done).run rejectingBackend readyState []).1 =
      .alert "Failed to fetch requests. Please try again." "Retry" .retry ∧
    (MiddlemanRequestsPage ((fetchRequests .done).run rejectingBackend readyState []).1).cards =
      [] ∧
    issuedCalls (Handler.retry.prog.run acceptingBackend
        ((fetchRequests .done).run rejectingBackend readyState []).1 []).2 =
      issuedCalls [] ++ [Call.get "/api/purchase-requests/all-pending"] :=
  ⟨rfl, rfl,
    (fetch_failure_then_retry rejectingBackend readyState [] "Network Error" rfl).1,
    (fetch_failure_then_retry rejectingBackend readyState [] "Network Error" rfl).2.1,
    (fetch_failure_then_retry rejectingBackend readyState [] "Network Error" rfl).2.2.2.2
      acceptingBackend []⟩

/-- C8 at the sample data: the ready state under filter `all` (three cards), and a list
with no fulfilled request under filter `fulfilled` (the empty-state block). -/
theorem ready_view_witness :
    readyState.loading = false ∧ readyState.error = none ∧
    filteredRequests readyState.requests readyState.filter ≠ [] ∧
    (MiddlemanRequestsPage readyState).cards.map Card.key =
      (filteredRequests readyState.requests readyState.filter).map PurchaseRequest.id ∧
    filteredRequests (sampleRequests.take 1) "fulfilled" = [] ∧
    MiddlemanRequestsPage { readyState with requests := sampleRequests.take 1,
                                            filter := "fulfilled" } =
      .page (filterControls "fulfilled")
        (.emptyState "No requests found"
          ("There are currently no " ++ (if "fulfilled" = "all" then "" else "fulfilled")
            ++ " requests available"))
        (overlaySlot none) :=
  ⟨rfl, rfl, by decide,
    ((ready_view readyState rfl rfl).2.2 (by decide)).2.2.2,
    by decide,
    (ready_view { readyState with requests := sampleRequests.take 1, filter := "fulfilled" }
      rfl rfl).2.1 (by decide)⟩

/-- C10 at the sample list: two of the three requests are in the `pending` or `fulfilled`
view, and request 3 (`Cancelled`) is only in the `all` view. -/
theorem pending_fulfilled_partition_witness :
    sampleRequests.get ⟨2, by decide⟩ ∈ sampleRequests ∧
    toLowerCase (sampleRequests.get ⟨2, by decide⟩).status ≠ "pending" ∧
    toLowerCase (sampleRequests.get ⟨2, by decide⟩).status ≠ "fulfilled" ∧
    (sampleRequests.get ⟨2, by decide⟩ ∈ filteredRequests sampleRequests "all" ∧
      sampleRequests.get ⟨2, by decide⟩ ∉ filteredRequests sampleRequests "pending" ∧
      sampleRequests.get ⟨2, by decide⟩ ∉ filteredRequests sampleRequests "fulfilled" ∧
      ∀ (b : Backend) (s : State) (t : List Event), ∃ rest,
        issuedCalls ((toggleStatus (sampleRequests.get ⟨2, by decide⟩).id
            (sampleRequests.get ⟨2, by decide⟩).status).run b s t).2 =
          issuedCalls t ++
            Call.put (statusUrl (sampleRequests.get ⟨2, by decide⟩).id "pending") :: rest) ∧
    (filteredRequests sampleRequests "pending").length +
        (filteredRequests sampleRequests "fulfilled").length ≤
      (filteredRequests sampleRequests "all").length :=
  ⟨by decide, by decide, by decide,
    (pending_fulfilled_partition sampleRequests).2.2.2 _ (by decide) (by decide) (by decide),
    (pending_fulfilled_partition sampleRequests).2.1⟩

end Agrotech
